import Mathlib

/-!
Shallow embedding of the connection/device/adapter lifecycle and the
multi-backend dispatch layer of the `surfman` repository.

Embedded source files:
* `src/platform/generic/multi/connection.rs` — the two-backend dispatcher.
* `src/platform/unix/x11/connection.rs` — the X11 backend connection.
* `src/platform/unix/generic/connection.rs` — the surfaceless backend.
* `src/connection.rs` — the abstract trait (shapes only, no logic).

Foreign calls (Xlib, EGL) are modelled by explicit function parameters and by
traces of emitted native calls; machine pointers are modelled as `Nat` with
`0` standing for the null pointer.
-/

namespace Surfman

/-- Modelled from the spec: the flat error enumeration of §7 (`src/error.rs`
is not among the provided sources; these are exactly the variants used by the
embedded code and listed in the spec). -/
inductive Error where
  | ConnectionFailed
  | IncompatibleAdapter
  | IncompatibleNativeDevice
  | IncompatibleNativeWidget
  | IncompatibleRawDisplayHandle
  | Unimplemented
  deriving DecidableEq, Repr

/-- The OpenGL API flavor, from `src/info.rs` (declared via usage in the
embedded sources: both embedded backends return `GLApi::GL`). -/
inductive GLApi where
  | GL
  | GLES
  deriving DecidableEq, Repr

/-- A 2-D size, standing for `euclid::default::Size2D<i32>`. -/
structure Size2D where
  width : Int
  height : Int
  deriving DecidableEq, Repr

/-- Outcome of a computation that may abort the process (a failed `assert!`):
`abort` never produces a value. -/
inductive AbortOr (α : Type) where
  | abort
  | ret (a : α)
  deriving DecidableEq, Repr

/-- The discriminant of a dispatcher-layer value: which concrete backend
produced it. -/
inductive Tag where
  | Default
  | Alternate
  deriving DecidableEq, Repr

namespace Multi

/-- `Connection<Def, Alt>` from `src/platform/generic/multi/connection.rs`
(lines 19-30): a two-case tagged union over the two backends' connection
types. -/
inductive Connection (DefC AltC : Type) where
  | Default : DefC → Connection DefC AltC
  | Alternate : AltC → Connection DefC AltC
  deriving DecidableEq, Repr

/-- `NativeConnection<Def, Alt>` from
`src/platform/generic/multi/connection.rs` (lines 48-59). -/
inductive NativeConnection (DefN AltN : Type) where
  | Default : DefN → NativeConnection DefN AltN
  | Alternate : AltN → NativeConnection DefN AltN
  deriving DecidableEq, Repr

/-- Modelled from the spec: `Adapter<Def, Alt>` lives in the missing
`src/platform/generic/multi/device.rs`; per §3 it is a two-case tagged union
over the two backends' adapter types. -/
inductive Adapter (DefA AltA : Type) where
  | Default : DefA → Adapter DefA AltA
  | Alternate : AltA → Adapter DefA AltA
  deriving DecidableEq, Repr

/-- Modelled from the spec: `Device<Def, Alt>` lives in the missing
`src/platform/generic/multi/device.rs`; per §3 it is a two-case tagged
union. -/
inductive Device (DefD AltD : Type) where
  | Default : DefD → Device DefD AltD
  | Alternate : AltD → Device DefD AltD
  deriving DecidableEq, Repr

/-- Modelled from the spec: `NativeDevice<Def, Alt>` lives in the missing
`src/platform/generic/multi/device.rs`; per §3 it is a two-case tagged
union. -/
inductive NativeDevice (DefN AltN : Type) where
  | Default : DefN → NativeDevice DefN AltN
  | Alternate : AltN → NativeDevice DefN AltN
  deriving DecidableEq, Repr

/-- Modelled from the spec: `NativeWidget<Def, Alt>` lives in the missing
`src/platform/generic/multi/surface.rs`; per §3 it is a two-case tagged
union. -/
inductive NativeWidget (DefW AltW : Type) where
  | Default : DefW → NativeWidget DefW AltW
  | Alternate : AltW → NativeWidget DefW AltW
  deriving DecidableEq, Repr

variable {DefC AltC DefA AltA DefD AltD DefN AltN DefW AltW H : Type}

/-- The variant tag of a dispatcher connection. -/
def Connection.tag : Connection DefC AltC → Tag
  | .Default _ => .Default
  | .Alternate _ => .Alternate

/-- The variant tag of a dispatcher adapter. -/
def Adapter.tag : Adapter DefA AltA → Tag
  | .Default _ => .Default
  | .Alternate _ => .Alternate

/-- The variant tag of a dispatcher device. -/
def Device.tag : Device DefD AltD → Tag
  | .Default _ => .Default
  | .Alternate _ => .Alternate

/-- The variant tag of a dispatcher native device. -/
def NativeDevice.tag : NativeDevice DefN AltN → Tag
  | .Default _ => .Default
  | .Alternate _ => .Alternate

/-- The variant tag of a dispatcher native connection. -/
def NativeConnection.tag : NativeConnection DefN AltN → Tag
  | .Default _ => .Default
  | .Alternate _ => .Alternate

/-- The variant tag of a dispatcher native widget. -/
def NativeWidget.tag : NativeWidget DefW AltW → Tag
  | .Default _ => .Default
  | .Alternate _ => .Alternate

/-- `Connection::new` (multi/connection.rs lines 85-90).  The underlying
backends' `new` constructors are passed in as the outcomes `defNew` and
`altNew`. -/
def Connection.new (defNew : Except Error DefC) (altNew : Except Error AltC) :
    Except Error (Connection DefC AltC) :=
  match defNew with
  | .ok connection => .ok (.Default connection)
  | .error _ => altNew.map .Alternate

/-- `Connection::from_raw_display_handle` (multi/connection.rs lines 201-210):
try the Default backend's same-named constructor, fall back to Alternate. -/
def Connection.from_raw_display_handle
    (fDef : H → Except Error DefC) (fAlt : H → Except Error AltC)
    (raw_handle : H) : Except Error (Connection DefC AltC) :=
  match fDef raw_handle with
  | .ok connection => .ok (.Default connection)
  | .error _ => (fAlt raw_handle).map .Alternate

/-- `Connection::from_display_handle` (multi/connection.rs lines 214-221). -/
def Connection.from_display_handle
    (fDef : H → Except Error DefC) (fAlt : H → Except Error AltC)
    (handle : H) : Except Error (Connection DefC AltC) :=
  match fDef handle with
  | .ok connection => .ok (.Default connection)
  | .error _ => (fAlt handle).map .Alternate

/-- `Connection::native_connection` (multi/connection.rs lines 93-102). -/
def Connection.native_connection
    (ncDef : DefC → DefN) (ncAlt : AltC → AltN) :
    Connection DefC AltC → NativeConnection DefN AltN
  | .Default connection => .Default (ncDef connection)
  | .Alternate connection => .Alternate (ncAlt connection)

/-- `Connection::gl_api` (multi/connection.rs lines 105-110). -/
def Connection.gl_api (gaDef : DefC → GLApi) (gaAlt : AltC → GLApi) :
    Connection DefC AltC → GLApi
  | .Default connection => gaDef connection
  | .Alternate connection => gaAlt connection

/-- `Connection::create_adapter` (multi/connection.rs lines 115-124). -/
def Connection.create_adapter
    (caDef : DefC → Except Error DefA) (caAlt : AltC → Except Error AltA) :
    Connection DefC AltC → Except Error (Adapter DefA AltA)
  | .Default connection => (caDef connection).map .Default
  | .Alternate connection => (caAlt connection).map .Alternate

/-- `Connection::create_hardware_adapter` (multi/connection.rs lines
127-136). -/
def Connection.create_hardware_adapter
    (caDef : DefC → Except Error DefA) (caAlt : AltC → Except Error AltA) :
    Connection DefC AltC → Except Error (Adapter DefA AltA)
  | .Default connection => (caDef connection).map .Default
  | .Alternate connection => (caAlt connection).map .Alternate

/-- `Connection::create_low_power_adapter` (multi/connection.rs lines
139-148). -/
def Connection.create_low_power_adapter
    (caDef : DefC → Except Error DefA) (caAlt : AltC → Except Error AltA) :
    Connection DefC AltC → Except Error (Adapter DefA AltA)
  | .Default connection => (caDef connection).map .Default
  | .Alternate connection => (caAlt connection).map .Alternate

/-- `Connection::create_software_adapter` (multi/connection.rs lines
151-160). -/
def Connection.create_software_adapter
    (caDef : DefC → Except Error DefA) (caAlt : AltC → Except Error AltA) :
    Connection DefC AltC → Except Error (Adapter DefA AltA)
  | .Default connection => (caDef connection).map .Default
  | .Alternate connection => (caAlt connection).map .Alternate

/-- `Connection::create_device` (multi/connection.rs lines 165-175):
matching tags delegate to the backend; mismatched tags are rejected with
`IncompatibleAdapter` without consulting the backend. -/
def Connection.create_device
    (cdDef : DefC → DefA → Except Error DefD)
    (cdAlt : AltC → AltA → Except Error AltD) :
    Connection DefC AltC → Adapter DefA AltA → Except Error (Device DefD AltD)
  | .Default connection, .Default adapter => (cdDef connection adapter).map .Default
  | .Alternate connection, .Alternate adapter => (cdAlt connection adapter).map .Alternate
  | _, _ => .error .IncompatibleAdapter

/-- `Connection::create_device_from_native_device` (multi/connection.rs lines
179-197). -/
def Connection.create_device_from_native_device
    (cdDef : DefC → DefN → Except Error DefD)
    (cdAlt : AltC → AltN → Except Error AltD) :
    Connection DefC AltC → NativeDevice DefN AltN →
    Except Error (Device DefD AltD)
  | .Default connection, native_device =>
    match native_device with
    | .Default native_device => (cdDef connection native_device).map .Default
    | _ => .error .IncompatibleNativeDevice
  | .Alternate connection, native_device =>
    match native_device with
    | .Alternate native_device => (cdAlt connection native_device).map .Alternate
    | _ => .error .IncompatibleNativeDevice

/-- `Connection::create_native_widget_from_ptr` (multi/connection.rs lines
224-237). -/
def Connection.create_native_widget_from_ptr
    (cwDef : DefC → Nat → Size2D → DefW) (cwAlt : AltC → Nat → Size2D → AltW)
    (conn : Connection DefC AltC) (raw : Nat) (size : Size2D) :
    NativeWidget DefW AltW :=
  match conn with
  | .Default connection => .Default (cwDef connection raw size)
  | .Alternate connection => .Alternate (cwAlt connection raw size)

/-- `Connection::create_native_widget_from_raw_window_handle`
(multi/connection.rs lines 241-254). -/
def Connection.create_native_widget_from_raw_window_handle
    (cwDef : DefC → H → Size2D → Except Error DefW)
    (cwAlt : AltC → H → Size2D → Except Error AltW)
    (conn : Connection DefC AltC) (raw_handle : H) (size : Size2D) :
    Except Error (NativeWidget DefW AltW) :=
  match conn with
  | .Default connection => (cwDef connection raw_handle size).map .Default
  | .Alternate connection => (cwAlt connection raw_handle size).map .Alternate

/-- `Connection::create_native_widget_from_window_handle`
(multi/connection.rs lines 258-271). -/
def Connection.create_native_widget_from_window_handle
    (cwDef : DefC → H → Size2D → Except Error DefW)
    (cwAlt : AltC → H → Size2D → Except Error AltW)
    (conn : Connection DefC AltC) (handle : H) (size : Size2D) :
    Except Error (NativeWidget DefW AltW) :=
  match conn with
  | .Default connection => (cwDef connection handle size).map .Default
  | .Alternate connection => (cwAlt connection handle size).map .Alternate

/-- Modelled from the spec: `Device::native_device` lives in the missing
`src/platform/generic/multi/device.rs`; per §4.2 every dispatcher operation
delegates to the active variant and re-wraps the result in the corresponding
tagged-union case. -/
def Device.native_device (ndDef : DefD → DefN) (ndAlt : AltD → AltN) :
    Device DefD AltD → NativeDevice DefN AltN
  | .Default device => .Default (ndDef device)
  | .Alternate device => .Alternate (ndAlt device)

end Multi

/-- Modelled from the spec: the raw display handle enumeration of the
"05"-version windowing-handle interchange standard (`rwh_05`, an external
collaborator per §6).  `Xlib` carries the raw display pointer (0 = null);
further platform variants stand in for the remaining cases the embedded
code matches with a wildcard. -/
inductive RawDisplayHandle05 where
  | Xlib (display : Nat) (screen : Int)
  | Xcb (connection : Nat) (screen : Int)
  | Wayland (display : Nat)
  | AppKit
  | Windows
  deriving DecidableEq, Repr

/-- Modelled from the spec: the raw display handle enumeration of the
"06"-version interchange standard (`rwh_06`): the `Xlib` display is a checked
non-null wrapper, modelled as `Option Nat` (`some` = non-null). -/
inductive RawDisplayHandle06 where
  | Xlib (display : Option Nat) (screen : Int)
  | Xcb (connection : Option Nat) (screen : Int)
  | Wayland (display : Nat)
  | AppKit
  | Windows
  deriving DecidableEq, Repr

/-- Modelled from the spec: `rwh_06::DisplayHandle`, a borrowed wrapper whose
`as_raw()` yields the underlying `RawDisplayHandle`. -/
structure DisplayHandle06 where
  as_raw : RawDisplayHandle06
  deriving DecidableEq, Repr

/-- `egl::NO_DISPLAY`, the sentinel "no display" value (a null pointer). -/
def NO_DISPLAY : Nat := 0

/-- The EGL foreign-function environment consumed by the backends (§6):
`eglGetPlatformDisplay` for the X11 platform (a function of the X display
pointer), `eglGetPlatformDisplay` for the surfaceless Mesa platform applied
to the default display (a constant), and the success of `eglInitialize`
(`initializeOk d = true` means the call did not return `EGL_FALSE`). -/
structure EGLEnv where
  getPlatformDisplayX11 : Nat → Nat
  getPlatformDisplaySurfaceless : Nat
  initializeOk : Nat → Bool

/-- Modelled from the spec: the `Adapter` of the missing
`src/platform/unix/generic/device.rs`, an immutable tag value
(hardware / low-power / software) per §3; `Adapter::hardware()` etc. are the
constructors. -/
inductive Adapter where
  | hardware
  | low_power
  | software
  deriving DecidableEq, Repr

/-- A native (Xlib) call emitted by the X11 backend, recorded in traces. -/
inductive XCall where
  | XCloseDisplay (display : Nat)
  | XLockDisplay (display : Nat)
  | XUnlockDisplay (display : Nat)
  deriving DecidableEq, Repr

/-- Number of `XCloseDisplay` calls in a trace. -/
def countClose (calls : List XCall) : Nat :=
  calls.countP fun c => match c with | .XCloseDisplay _ => true | _ => false

/-- Number of `XLockDisplay` calls in a trace. -/
def countLock (calls : List XCall) : Nat :=
  calls.countP fun c => match c with | .XLockDisplay _ => true | _ => false

/-- Number of `XUnlockDisplay` calls in a trace. -/
def countUnlock (calls : List XCall) : Nat :=
  calls.countP fun c => match c with | .XUnlockDisplay _ => true | _ => false

namespace X11

/-- `NativeConnectionWrapper` (x11/connection.rs lines 40-44): the Arc
payload shared by all clones of a `Connection`.  Pointers are `Nat`,
0 = null. -/
structure NativeConnectionWrapper where
  egl_display : Nat
  x11_display : Nat
  x11_display_is_owned : Bool
  deriving DecidableEq, Repr

/-- `Connection` (x11/connection.rs lines 34-36): holds the Arc-shared
wrapper. -/
structure Connection where
  native_connection : NativeConnectionWrapper
  deriving DecidableEq, Repr

/-- `NativeConnection` (x11/connection.rs lines 48-57): a plain value view
of the two display handles. -/
structure NativeConnection where
  egl_display : Nat
  x11_display : Nat
  deriving DecidableEq, Repr

/-- `impl Drop for NativeConnectionWrapper` (x11/connection.rs lines 64-74):
emits `XCloseDisplay` iff the wrapper owns the display, then nulls the
stored pointer. -/
def NativeConnectionWrapper.drop (w : NativeConnectionWrapper) :
    List XCall × NativeConnectionWrapper :=
  ((if w.x11_display_is_owned then [.XCloseDisplay w.x11_display] else []),
   { w with x11_display := 0 })

/-- `create_egl_display` (x11/connection.rs lines 311-326): obtains the EGL
display for the X display and `assert!`s that `eglInitialize` did not return
`EGL_FALSE`; a failed assertion aborts the process. -/
def create_egl_display (egl : EGLEnv) (display : Nat) : AbortOr Nat :=
  let egl_display := egl.getPlatformDisplayX11 display
  if egl.initializeOk egl_display then .ret egl_display else .abort

/-- `Connection::new` (x11/connection.rs lines 79-98): `xOpenDisplayNull` is
the result of `XOpenDisplay(null)`.  The process-wide `XInitThreads`
lazy-static has no bearing on the returned value. -/
def Connection.new (xOpenDisplayNull : Nat) (egl : EGLEnv) :
    AbortOr (Except Error Connection) :=
  let x11_display := xOpenDisplayNull
  if x11_display = 0 then .ret (.error .ConnectionFailed)
  else
    match create_egl_display egl x11_display with
    | .abort => .abort
    | .ret egl_display =>
      .ret (.ok ⟨⟨egl_display, x11_display, true⟩⟩)

/-- `Connection::from_native_connection` (x11/connection.rs lines 110-120):
wraps an existing display without taking ownership. -/
def Connection.from_native_connection (native_connection : NativeConnection) :
    Except Error Connection :=
  .ok ⟨⟨native_connection.egl_display, native_connection.x11_display, false⟩⟩

/-- `Connection::from_x11_display` (x11/connection.rs lines 122-133). -/
def Connection.from_x11_display (egl : EGLEnv) (x11_display : Nat)
    (is_owned : Bool) : AbortOr (Except Error Connection) :=
  match create_egl_display egl x11_display with
  | .abort => .abort
  | .ret egl_display => .ret (.ok ⟨⟨egl_display, x11_display, is_owned⟩⟩)

/-- `Connection::gl_api` (x11/connection.rs lines 146-148). -/
def Connection.gl_api (_self : Connection) : GLApi := .GL

/-- `Connection::create_hardware_adapter` (x11/connection.rs lines
160-162). -/
def Connection.create_hardware_adapter (_self : Connection) :
    Except Error Adapter :=
  .ok .hardware

/-- `Connection::create_adapter` (x11/connection.rs lines 154-156): alias for
`create_hardware_adapter`. -/
def Connection.create_adapter (self : Connection) : Except Error Adapter :=
  self.create_hardware_adapter

/-- `Connection::create_low_power_adapter` (x11/connection.rs lines
166-168). -/
def Connection.create_low_power_adapter (_self : Connection) :
    Except Error Adapter :=
  .ok .low_power

/-- `Connection::create_software_adapter` (x11/connection.rs lines
172-174). -/
def Connection.create_software_adapter (_self : Connection) :
    Except Error Adapter :=
  .ok .software

/-- `Connection::from_raw_display_handle` (x11/connection.rs lines 198-211):
`Xlib` handles proceed to `from_x11_display(display, false)`, `Xcb` is
recognized but unimplemented, anything else is incompatible. -/
def Connection.from_raw_display_handle (egl : EGLEnv)
    (raw_handle : RawDisplayHandle05) : AbortOr (Except Error Connection) :=
  match raw_handle with
  | .Xlib display _ => Connection.from_x11_display egl display false
  | .Xcb _ _ => .ret (.error .Unimplemented)
  | _ => .ret (.error .IncompatibleRawDisplayHandle)

/-- `Connection::from_display_handle` (x11/connection.rs lines 215-229): only
`Xlib` handles with a non-null display proceed; `Xcb` is unimplemented; the
wildcard (other platforms, and `Xlib` with a null display) is
incompatible. -/
def Connection.from_display_handle (egl : EGLEnv) (handle : DisplayHandle06) :
    AbortOr (Except Error Connection) :=
  match handle.as_raw with
  | .Xlib (some display) _ => Connection.from_x11_display egl display false
  | .Xcb _ _ => .ret (.error .Unimplemented)
  | _ => .ret (.error .IncompatibleRawDisplayHandle)

/-- `DisplayGuard` (x11/connection.rs lines 291-294). -/
structure DisplayGuard where
  display : Nat
  deriving DecidableEq, Repr

/-- `NativeConnectionWrapper::lock_display` (x11/connection.rs lines
277-289): emits `XLockDisplay` and returns the guard. -/
def NativeConnectionWrapper.lock_display (w : NativeConnectionWrapper) :
    List XCall × DisplayGuard :=
  ([.XLockDisplay w.x11_display], ⟨w.x11_display⟩)

/-- `impl Drop for DisplayGuard` (x11/connection.rs lines 296-302): emits
`XUnlockDisplay` on the stored display. -/
def DisplayGuard.drop (g : DisplayGuard) : List XCall :=
  [.XUnlockDisplay g.display]

/-- A scope that acquires the display lock via `lock_display` and runs a
fallible body.  Per Rust drop semantics, the guard created at scope entry is
dropped on every path out of the scope — normal exit, early return and
failure alike — so the scope's trace is lock calls, then body calls, then
guard-drop calls, whatever the body's result. -/
def withLockedDisplay {α : Type} (w : NativeConnectionWrapper)
    (body : Nat → List XCall × Except Error α) : List XCall × Except Error α :=
  let lockResult := w.lock_display
  let bodyResult := body lockResult.2.display
  (lockResult.1 ++ bodyResult.1 ++ lockResult.2.drop, bodyResult.2)

end X11

/-- Modelled from the spec: Rust `Arc` drop semantics (§3: "destroyed when
its last shared reference drops").  Dropping one clone while `remaining`
references exist runs the payload's drop (emitting `innerCalls`) exactly when
this reference is the last one. -/
def arcDropOne (remaining : Nat) (innerCalls : List XCall) : List XCall :=
  if remaining = 1 then innerCalls else []

/-- Modelled from the spec: dropping all `n` clones of an `Arc`-shared
wrapper, one after the other; only the final drop reaches the payload's
drop. -/
def arcDropAll : Nat → List XCall → List XCall
  | 0, _ => []
  | n + 1, innerCalls => arcDropOne (n + 1) innerCalls ++ arcDropAll n innerCalls

namespace Generic

/-- `NativeConnectionWrapper` (generic/connection.rs lines 36-38). -/
structure NativeConnectionWrapper where
  egl_display : Nat
  deriving DecidableEq, Repr

/-- `Connection` (generic/connection.rs lines 22-24). -/
structure Connection where
  native_connection : NativeConnectionWrapper
  deriving DecidableEq, Repr

/-- `NativeConnection` (generic/connection.rs line 28): a tuple struct whose
single field (`.0`) is the Arc-shared wrapper. -/
structure NativeConnection where
  wrapper : NativeConnectionWrapper
  deriving DecidableEq, Repr

/-- Modelled from the spec: the `NativeDevice` of the missing
`src/platform/unix/generic/device.rs`; it is ignored wholesale by the
embedded code, and per §3/§4.4 it amounts to an adapter tag. -/
structure NativeDevice where
  adapter : Adapter
  deriving DecidableEq, Repr

/-- Modelled from the spec: the `Device` of the missing
`src/platform/unix/generic/device.rs` and its `Device::new`; per §3 a Device
pairs the connection with the chosen adapter tag, and per §8 scenario A
opening a device on the surfaceless backend succeeds. -/
structure Device where
  adapter : Adapter
  deriving DecidableEq, Repr

/-- Modelled from the spec: `Device::new` of the missing
`src/platform/unix/generic/device.rs`; see `Device`. -/
def Device.new (_connection : Connection) (adapter : Adapter) :
    Except Error Device :=
  .ok ⟨adapter⟩

/-- `Connection::from_native_connection` (generic/connection.rs lines
76-82). -/
def Connection.from_native_connection (native_connection : NativeConnection) :
    Except Error Connection :=
  .ok ⟨native_connection.wrapper⟩

/-- `Connection::new` (generic/connection.rs lines 46-72): obtains the
surfaceless Mesa platform display, failing with `ConnectionFailed` on the
`NO_DISPLAY` sentinel or when `eglInitialize` returns `EGL_FALSE`. -/
def Connection.new (egl : EGLEnv) : Except Error Connection :=
  let egl_display := egl.getPlatformDisplaySurfaceless
  if egl_display = NO_DISPLAY then .error .ConnectionFailed
  else if egl.initializeOk egl_display = false then .error .ConnectionFailed
  else Connection.from_native_connection ⟨⟨egl_display⟩⟩

/-- `Connection::native_connection` (generic/connection.rs lines 86-88). -/
def Connection.native_connection_value (self : Connection) : NativeConnection :=
  ⟨self.native_connection⟩

/-- `Connection::gl_api` (generic/connection.rs lines 92-94). -/
def Connection.gl_api (_self : Connection) : GLApi := .GL

/-- `Connection::create_hardware_adapter` (generic/connection.rs lines
108-110). -/
def Connection.create_hardware_adapter (_self : Connection) :
    Except Error Adapter :=
  .ok .hardware

/-- `Connection::create_adapter` (generic/connection.rs lines 100-102):
alias for `create_hardware_adapter`. -/
def Connection.create_adapter (self : Connection) : Except Error Adapter :=
  self.create_hardware_adapter

/-- `Connection::create_low_power_adapter` (generic/connection.rs lines
116-118). -/
def Connection.create_low_power_adapter (_self : Connection) :
    Except Error Adapter :=
  .ok .low_power

/-- `Connection::create_software_adapter` (generic/connection.rs lines
122-124). -/
def Connection.create_software_adapter (_self : Connection) :
    Except Error Adapter :=
  .ok .software

/-- `Connection::create_device` (generic/connection.rs lines 130-132). -/
def Connection.create_device (self : Connection) (adapter : Adapter) :
    Except Error Device :=
  Device.new self adapter

/-- `Connection::create_device_from_native_device` (generic/connection.rs
lines 136-141): the native device argument is ignored; the device is opened
with `self.create_adapter()?`. -/
def Connection.create_device_from_native_device (self : Connection)
    (_native_device : NativeDevice) : Except Error Device :=
  match self.create_adapter with
  | .error e => .error e
  | .ok adapter => Device.new self adapter

/-- `Connection::from_raw_display_handle` (generic/connection.rs lines
145-147): unconditionally `IncompatibleNativeWidget`. -/
def Connection.from_raw_display_handle (_ : RawDisplayHandle05) :
    Except Error Connection :=
  .error .IncompatibleNativeWidget

/-- `Connection::from_display_handle` (generic/connection.rs lines 151-153):
unconditionally `IncompatibleNativeWidget`. -/
def Connection.from_display_handle (_ : DisplayHandle06) :
    Except Error Connection :=
  .error .IncompatibleNativeWidget

end Generic

/-! ## Helper lemmas -/

/-- Inversion for `Except.map` returning `ok`. -/
theorem map_ok_inv {α β : Type} {f : α → β} {x : Except Error α} {b : β}
    (h : Except.map f x = .ok b) : ∃ a, x = .ok a ∧ b = f a := by
  cases x with
  | ok a =>
    refine ⟨a, rfl, ?_⟩
    have hfa : f a = b := by simpa [Except.map] using h
    exact hfa.symm
  | error e => simp [Except.map] at h

/-- `arcDropAll` in closed form: the payload's drop calls appear exactly when
at least one reference existed. -/
theorem arcDropAll_eq (n : Nat) (innerCalls : List XCall) :
    arcDropAll n innerCalls = if n = 0 then [] else innerCalls := by
  induction n with
  | zero => simp [arcDropAll]
  | succ m ih =>
    cases m with
    | zero => simp [arcDropAll, arcDropOne]
    | succ k =>
      simp [arcDropAll, arcDropOne] at ih ⊢
      exact ih

/-! ## Claim theorems -/

/-- Claim C1: each dispatcher constructor (`new`, `from_raw_display_handle`,
`from_display_handle`) tries the Default backend's same-named constructor
first; on its success the result is the `Default` variant whatever the
Alternate would do; only when it errors is the Alternate backend tried, a
success there yielding the `Alternate` variant; and when both fail the error
returned is exactly the Alternate backend's — the Default backend's error is
discarded. -/
theorem multi_constructors_default_then_alternate
    {DefC AltC H : Type}
    (defNew : Except Error DefC) (altNew : Except Error AltC)
    (fDef : H → Except Error DefC) (fAlt : H → Except Error AltC)
    (gDef : H → Except Error DefC) (gAlt : H → Except Error AltC)
    (h : H) :
    (∀ c, defNew = .ok c →
      Multi.Connection.new defNew altNew = .ok (.Default c)) ∧
    (∀ e c, defNew = .error e → altNew = .ok c →
      Multi.Connection.new defNew altNew = .ok (.Alternate c)) ∧
    (∀ e e', defNew = .error e → altNew = .error e' →
      Multi.Connection.new defNew altNew = .error e') ∧
    (∀ c, fDef h = .ok c →
      Multi.Connection.from_raw_display_handle fDef fAlt h = .ok (.Default c)) ∧
    (∀ e c, fDef h = .error e → fAlt h = .ok c →
      Multi.Connection.from_raw_display_handle fDef fAlt h =
        .ok (.Alternate c)) ∧
    (∀ e e', fDef h = .error e → fAlt h = .error e' →
      Multi.Connection.from_raw_display_handle fDef fAlt h = .error e') ∧
    (∀ c, gDef h = .ok c →
      Multi.Connection.from_display_handle gDef gAlt h = .ok (.Default c)) ∧
    (∀ e c, gDef h = .error e → gAlt h = .ok c →
      Multi.Connection.from_display_handle gDef gAlt h = .ok (.Alternate c)) ∧
    (∀ e e', gDef h = .error e → gAlt h = .error e' →
      Multi.Connection.from_display_handle gDef gAlt h = .error e') := by
  refine ⟨?_, ?_, ?_, ?_, ?_, ?_, ?_, ?_, ?_⟩ <;> intros <;>
    simp_all [Multi.Connection.new, Multi.Connection.from_raw_display_handle,
      Multi.Connection.from_display_handle, Except.map]

/-- Witness for C1: both backends fail at concrete inputs and exactly the
Alternate backend's error is propagated. -/
theorem multi_constructors_default_then_alternate_witness :
    @Multi.Connection.new Unit Unit (.error .ConnectionFailed)
      (.error .Unimplemented) = .error .Unimplemented :=
  (@multi_constructors_default_then_alternate Unit Unit Unit
    (.error .ConnectionFailed) (.error .Unimplemented)
    (fun _ => .ok ()) (fun _ => .ok ()) (fun _ => .ok ()) (fun _ => .ok ())
    ()).2.2.1 .ConnectionFailed .Unimplemented rfl rfl

/-- Claim C2: `create_device` on the dispatcher rejects a mismatched
variant tag with `IncompatibleAdapter`, whatever the two underlying
backends' `create_device` functions would return — the tag check precedes
any delegation. -/
theorem multi_create_device_rejects_mismatched_tags
    {DefC AltC DefA AltA DefD AltD : Type}
    (cdDef : DefC → DefA → Except Error DefD)
    (cdAlt : AltC → AltA → Except Error AltD)
    (conn : Multi.Connection DefC AltC) (adapter : Multi.Adapter DefA AltA)
    (hne : conn.tag ≠ adapter.tag) :
    Multi.Connection.create_device cdDef cdAlt conn adapter =
      .error .IncompatibleAdapter := by
  cases conn <;> cases adapter <;>
    simp_all [Multi.Connection.tag, Multi.Adapter.tag,
      Multi.Connection.create_device]

/-- Witness for C2: a Default connection with an Alternate adapter is
rejected even though both backends' `create_device` always succeed. -/
theorem multi_create_device_rejects_mismatched_tags_witness :
    ((Multi.Connection.Default ()) : Multi.Connection Unit Unit).tag ≠
        ((Multi.Adapter.Alternate ()) : Multi.Adapter Unit Unit).tag ∧
      Multi.Connection.create_device
        (fun (_ : Unit) (_ : Unit) => (Except.ok 0 : Except Error Nat))
        (fun (_ : Unit) (_ : Unit) => (Except.ok 0 : Except Error Nat))
        (Multi.Connection.Default ()) (Multi.Adapter.Alternate ()) =
        .error .IncompatibleAdapter :=
  ⟨by decide,
   multi_create_device_rejects_mismatched_tags
     (fun (_ : Unit) (_ : Unit) => (Except.ok 0 : Except Error Nat))
     (fun (_ : Unit) (_ : Unit) => (Except.ok 0 : Except Error Nat))
     (Multi.Connection.Default ()) (Multi.Adapter.Alternate ()) (by decide)⟩

/-- Claim C3: `create_device_from_native_device` on the dispatcher rejects a
mismatched variant tag with `IncompatibleNativeDevice`, whatever the two
underlying backends' functions would return — the tag comparison precedes
any delegation. -/
theorem multi_cdfnd_rejects_mismatched_tags
    {DefC AltC DefN AltN DefD AltD : Type}
    (cdDef : DefC → DefN → Except Error DefD)
    (cdAlt : AltC → AltN → Except Error AltD)
    (conn : Multi.Connection DefC AltC)
    (native_device : Multi.NativeDevice DefN AltN)
    (hne : conn.tag ≠ native_device.tag) :
    Multi.Connection.create_device_from_native_device cdDef cdAlt conn
      native_device = .error .IncompatibleNativeDevice := by
  cases conn <;> cases native_device <;>
    simp_all [Multi.Connection.tag, Multi.NativeDevice.tag,
      Multi.Connection.create_device_from_native_device]

/-- Witness for C3: an Alternate connection with a Default native device is
rejected even though both backends' functions always succeed. -/
theorem multi_cdfnd_rejects_mismatched_tags_witness :
    ((Multi.Connection.Alternate ()) : Multi.Connection Unit Unit).tag ≠
        ((Multi.NativeDevice.Default ()) : Multi.NativeDevice Unit Unit).tag ∧
      Multi.Connection.create_device_from_native_device
        (fun (_ : Unit) (_ : Unit) => (Except.ok 0 : Except Error Nat))
        (fun (_ : Unit) (_ : Unit) => (Except.ok 0 : Except Error Nat))
        (Multi.Connection.Alternate ()) (Multi.NativeDevice.Default ()) =
        .error .IncompatibleNativeDevice :=
  ⟨by decide,
   multi_cdfnd_rejects_mismatched_tags
     (fun (_ : Unit) (_ : Unit) => (Except.ok 0 : Except Error Nat))
     (fun (_ : Unit) (_ : Unit) => (Except.ok 0 : Except Error Nat))
     (Multi.Connection.Alternate ()) (Multi.NativeDevice.Default ())
     (by decide)⟩

/-- Claim C4: every value a dispatcher Connection successfully produces —
adapters from the four adapter constructors, devices from `create_device`
and `create_device_from_native_device`, the native connection, native
widgets from the three widget constructors, and the native device derived
from a produced device — carries the same variant tag as the Connection it
was derived from. -/
theorem multi_derived_values_carry_connection_tag
    {DefC AltC DefA AltA DefD AltD DefN AltN DefW AltW DN AN H : Type}
    (caDef : DefC → Except Error DefA) (caAlt : AltC → Except Error AltA)
    (chDef : DefC → Except Error DefA) (chAlt : AltC → Except Error AltA)
    (clDef : DefC → Except Error DefA) (clAlt : AltC → Except Error AltA)
    (csDef : DefC → Except Error DefA) (csAlt : AltC → Except Error AltA)
    (cdDef : DefC → DefA → Except Error DefD)
    (cdAlt : AltC → AltA → Except Error AltD)
    (cnDef : DefC → DN → Except Error DefD)
    (cnAlt : AltC → AN → Except Error AltD)
    (ncDef : DefC → DefN) (ncAlt : AltC → AltN)
    (cwDef : DefC → Nat → Size2D → DefW) (cwAlt : AltC → Nat → Size2D → AltW)
    (rwDef : DefC → H → Size2D → Except Error DefW)
    (rwAlt : AltC → H → Size2D → Except Error AltW)
    (whDef : DefC → H → Size2D → Except Error DefW)
    (whAlt : AltC → H → Size2D → Except Error AltW)
    (ndDef : DefD → DN) (ndAlt : AltD → AN)
    (conn : Multi.Connection DefC AltC) :
    (∀ a, Multi.Connection.create_adapter caDef caAlt conn = .ok a →
      a.tag = conn.tag) ∧
    (∀ a, Multi.Connection.create_hardware_adapter chDef chAlt conn = .ok a →
      a.tag = conn.tag) ∧
    (∀ a, Multi.Connection.create_low_power_adapter clDef clAlt conn = .ok a →
      a.tag = conn.tag) ∧
    (∀ a, Multi.Connection.create_software_adapter csDef csAlt conn = .ok a →
      a.tag = conn.tag) ∧
    (∀ adapter d,
      Multi.Connection.create_device cdDef cdAlt conn adapter = .ok d →
      d.tag = conn.tag) ∧
    (∀ nd d,
      Multi.Connection.create_device_from_native_device cnDef cnAlt conn nd =
        .ok d → d.tag = conn.tag) ∧
    (Multi.Connection.native_connection ncDef ncAlt conn).tag = conn.tag ∧
    (∀ raw size,
      (Multi.Connection.create_native_widget_from_ptr cwDef cwAlt conn raw
        size).tag = conn.tag) ∧
    (∀ hdl size w,
      Multi.Connection.create_native_widget_from_raw_window_handle rwDef rwAlt
        conn hdl size = .ok w → w.tag = conn.tag) ∧
    (∀ hdl size w,
      Multi.Connection.create_native_widget_from_window_handle whDef whAlt
        conn hdl size = .ok w → w.tag = conn.tag) ∧
    (∀ adapter d,
      Multi.Connection.create_device cdDef cdAlt conn adapter = .ok d →
      (Multi.Device.native_device ndDef ndAlt d).tag = conn.tag) := by
  cases conn with
  | Default c =>
    refine ⟨?_, ?_, ?_, ?_, ?_, ?_, rfl, fun _ _ => rfl, ?_, ?_, ?_⟩
    · intro a h
      simp only [Multi.Connection.create_adapter] at h
      obtain ⟨y, _, rfl⟩ := map_ok_inv h
      rfl
    · intro a h
      simp only [Multi.Connection.create_hardware_adapter] at h
      obtain ⟨y, _, rfl⟩ := map_ok_inv h
      rfl
    · intro a h
      simp only [Multi.Connection.create_low_power_adapter] at h
      obtain ⟨y, _, rfl⟩ := map_ok_inv h
      rfl
    · intro a h
      simp only [Multi.Connection.create_software_adapter] at h
      obtain ⟨y, _, rfl⟩ := map_ok_inv h
      rfl
    · intro adapter d h
      cases adapter with
      | Default a =>
        simp only [Multi.Connection.create_device] at h
        obtain ⟨y, _, rfl⟩ := map_ok_inv h
        rfl
      | Alternate a => simp [Multi.Connection.create_device] at h
    · intro nd d h
      cases nd with
      | Default x =>
        simp only [Multi.Connection.create_device_from_native_device] at h
        obtain ⟨y, _, rfl⟩ := map_ok_inv h
        rfl
      | Alternate x =>
        simp [Multi.Connection.create_device_from_native_device] at h
    · intro hdl size w h
      simp only
        [Multi.Connection.create_native_widget_from_raw_window_handle] at h
      obtain ⟨y, _, rfl⟩ := map_ok_inv h
      rfl
    · intro hdl size w h
      simp only [Multi.Connection.create_native_widget_from_window_handle] at h
      obtain ⟨y, _, rfl⟩ := map_ok_inv h
      rfl
    · intro adapter d h
      cases adapter with
      | Default a =>
        simp only [Multi.Connection.create_device] at h
        obtain ⟨y, _, rfl⟩ := map_ok_inv h
        rfl
      | Alternate a => simp [Multi.Connection.create_device] at h
  | Alternate c =>
    refine ⟨?_, ?_, ?_, ?_, ?_, ?_, rfl, fun _ _ => rfl, ?_, ?_, ?_⟩
    · intro a h
      simp only [Multi.Connection.create_adapter] at h
      obtain ⟨y, _, rfl⟩ := map_ok_inv h
      rfl
    · intro a h
      simp only [Multi.Connection.create_hardware_adapter] at h
      obtain ⟨y, _, rfl⟩ := map_ok_inv h
      rfl
    · intro a h
      simp only [Multi.Connection.create_low_power_adapter] at h
      obtain ⟨y, _, rfl⟩ := map_ok_inv h
      rfl
    · intro a h
      simp only [Multi.Connection.create_software_adapter] at h
      obtain ⟨y, _, rfl⟩ := map_ok_inv h
      rfl
    · intro adapter d h
      cases adapter with
      | Default a => simp [Multi.Connection.create_device] at h
      | Alternate a =>
        simp only [Multi.Connection.create_device] at h
        obtain ⟨y, _, rfl⟩ := map_ok_inv h
        rfl
    · intro nd d h
      cases nd with
      | Default x =>
        simp [Multi.Connection.create_device_from_native_device] at h
      | Alternate x =>
        simp only [Multi.Connection.create_device_from_native_device] at h
        obtain ⟨y, _, rfl⟩ := map_ok_inv h
        rfl
    · intro hdl size w h
      simp only
        [Multi.Connection.create_native_widget_from_raw_window_handle] at h
      obtain ⟨y, _, rfl⟩ := map_ok_inv h
      rfl
    · intro hdl size w h
      simp only [Multi.Connection.create_native_widget_from_window_handle] at h
      obtain ⟨y, _, rfl⟩ := map_ok_inv h
      rfl
    · intro adapter d h
      cases adapter with
      | Default a => simp [Multi.Connection.create_device] at h
      | Alternate a =>
        simp only [Multi.Connection.create_device] at h
        obtain ⟨y, _, rfl⟩ := map_ok_inv h
        rfl

/-- Witness for C4: on a concrete Default-variant connection,
`create_adapter` yields a Default-tagged adapter whose tag equals the
connection's. -/
theorem multi_derived_values_carry_connection_tag_witness :
    Multi.Connection.create_adapter
        (fun (_ : Unit) => (Except.ok () : Except Error Unit))
        (fun (_ : Unit) => (Except.ok () : Except Error Unit))
        ((Multi.Connection.Default ()) : Multi.Connection Unit Unit) =
        .ok (.Default ()) ∧
      ((Multi.Adapter.Default ()) : Multi.Adapter Unit Unit).tag =
        ((Multi.Connection.Default ()) : Multi.Connection Unit Unit).tag :=
  ⟨rfl,
   (@multi_derived_values_carry_connection_tag
     Unit Unit Unit Unit Unit Unit Unit Unit Unit Unit Unit Unit Unit
     (fun _ => .ok ()) (fun _ => .ok ()) (fun _ => .ok ()) (fun _ => .ok ())
     (fun _ => .ok ()) (fun _ => .ok ()) (fun _ => .ok ()) (fun _ => .ok ())
     (fun _ _ => .ok ()) (fun _ _ => .ok ()) (fun _ _ => .ok ())
     (fun _ _ => .ok ()) (fun _ => ()) (fun _ => ())
     (fun _ _ _ => ()) (fun _ _ _ => ())
     (fun _ _ _ => .ok ()) (fun _ _ _ => .ok ())
     (fun _ _ _ => .ok ()) (fun _ _ _ => .ok ())
     (fun _ => ()) (fun _ => ())
     (Multi.Connection.Default ())).1 (.Default ()) rfl⟩

/-- Counterexample to C5: the surfaceless (generic) backend's
`from_raw_display_handle`, given a mismatched (Wayland) display handle,
returns `IncompatibleNativeWidget` — an error kind other than the two the
claim permits for a mismatched handle. -/
theorem generic_display_handle_error_kind_counterexample :
    Generic.Connection.from_raw_display_handle (.Wayland 1) =
        .error .IncompatibleNativeWidget ∧
      Error.IncompatibleNativeWidget ≠ Error.IncompatibleRawDisplayHandle ∧
      Error.IncompatibleNativeWidget ≠ Error.Unimplemented :=
  ⟨rfl, by decide, by decide⟩

/-- Claim C5 (amended): for the X11 backend the claim holds as stated —
`from_raw_display_handle` and `from_display_handle` return
`IncompatibleRawDisplayHandle` for handles whose platform tag does not match
(neither Xlib nor Xcb), `Unimplemented` for the recognized-but-unsupported
Xcb sub-variant, and no other error kind ever; the surfaceless (generic)
backend, however, returns `IncompatibleNativeWidget` for every supplied
display handle. -/
theorem display_handle_error_kinds (egl : EGLEnv)
    (raw05 : RawDisplayHandle05) (h06 : DisplayHandle06) :
    (∀ connection screen, raw05 = .Xcb connection screen →
      X11.Connection.from_raw_display_handle egl raw05 =
        .ret (.error .Unimplemented)) ∧
    ((∀ d s, raw05 ≠ .Xlib d s) → (∀ c s, raw05 ≠ .Xcb c s) →
      X11.Connection.from_raw_display_handle egl raw05 =
        .ret (.error .IncompatibleRawDisplayHandle)) ∧
    (∀ e, X11.Connection.from_raw_display_handle egl raw05 =
        .ret (.error e) →
      e = .Unimplemented ∨ e = .IncompatibleRawDisplayHandle) ∧
    (∀ connection screen, h06.as_raw = .Xcb connection screen →
      X11.Connection.from_display_handle egl h06 =
        .ret (.error .Unimplemented)) ∧
    ((∀ d s, h06.as_raw ≠ .Xlib d s) → (∀ c s, h06.as_raw ≠ .Xcb c s) →
      X11.Connection.from_display_handle egl h06 =
        .ret (.error .IncompatibleRawDisplayHandle)) ∧
    (∀ e, X11.Connection.from_display_handle egl h06 = .ret (.error e) →
      e = .Unimplemented ∨ e = .IncompatibleRawDisplayHandle) ∧
    Generic.Connection.from_raw_display_handle raw05 =
      .error .IncompatibleNativeWidget ∧
    Generic.Connection.from_display_handle h06 =
      .error .IncompatibleNativeWidget := by
  obtain ⟨raw06⟩ := h06
  refine ⟨?_, ?_, ?_, ?_, ?_, ?_, rfl, rfl⟩
  · intro connection screen hx
    subst hx
    rfl
  · intro hXlib hXcb
    cases raw05 with
    | Xlib d s => exact absurd rfl (hXlib d s)
    | Xcb c s => exact absurd rfl (hXcb c s)
    | Wayland d => rfl
    | AppKit => rfl
    | Windows => rfl
  · intro e he
    cases raw05 with
    | Xlib d s =>
      simp only [X11.Connection.from_raw_display_handle] at he
      cases hc : X11.create_egl_display egl d <;>
        simp [X11.Connection.from_x11_display, hc] at he
    | Xcb c s =>
      simp only [X11.Connection.from_raw_display_handle] at he
      simp at he
      exact Or.inl he.symm
    | Wayland d =>
      simp only [X11.Connection.from_raw_display_handle] at he
      simp at he
      exact Or.inr he.symm
    | AppKit =>
      simp only [X11.Connection.from_raw_display_handle] at he
      simp at he
      exact Or.inr he.symm
    | Windows =>
      simp only [X11.Connection.from_raw_display_handle] at he
      simp at he
      exact Or.inr he.symm
  · intro connection screen hx
    simp only at hx
    subst hx
    rfl
  · intro hXlib hXcb
    cases raw06 with
    | Xlib d s =>
      exact absurd rfl (hXlib d s)
    | Xcb c s => exact absurd rfl (hXcb c s)
    | Wayland d => rfl
    | AppKit => rfl
    | Windows => rfl
  · intro e he
    cases raw06 with
    | Xlib d s =>
      cases d with
      | none =>
        simp only [X11.Connection.from_display_handle] at he
        simp at he
        exact Or.inr he.symm
      | some d =>
        simp only [X11.Connection.from_display_handle] at he
        cases hc : X11.create_egl_display egl d <;>
          simp [X11.Connection.from_x11_display, hc] at he
    | Xcb c s =>
      simp only [X11.Connection.from_display_handle] at he
      simp at he
      exact Or.inl he.symm
    | Wayland d =>
      simp only [X11.Connection.from_display_handle] at he
      simp at he
      exact Or.inr he.symm
    | AppKit =>
      simp only [X11.Connection.from_display_handle] at he
      simp at he
      exact Or.inr he.symm
    | Windows =>
      simp only [X11.Connection.from_display_handle] at he
      simp at he
      exact Or.inr he.symm

/-- Witness for C5 (amended): a Wayland handle on the X11 backend yields
`IncompatibleRawDisplayHandle`; the same handle on the generic backend
yields `IncompatibleNativeWidget`. -/
theorem display_handle_error_kinds_witness :
    X11.Connection.from_raw_display_handle
        ⟨fun d => d + 1, 7, fun _ => true⟩ (.Wayland 1) =
        .ret (.error .IncompatibleRawDisplayHandle) ∧
      Generic.Connection.from_raw_display_handle (.Wayland 1) =
        .error .IncompatibleNativeWidget :=
  ⟨(display_handle_error_kinds ⟨fun d => d + 1, 7, fun _ => true⟩
      (.Wayland 1) ⟨.AppKit⟩).2.1
    (fun d s h => by cases h) (fun c s h => by cases h),
   (display_handle_error_kinds ⟨fun d => d + 1, 7, fun _ => true⟩
      (.Wayland 1) ⟨.AppKit⟩).2.2.2.2.2.2.1⟩

/-- Claim C6: on both embedded backends, `new()` either returns (when it
returns at all) an `ok` Connection on which `gl_api()` and
`create_adapter()` succeed — and whose EGL display passed initialization,
so it is not half-initialized — or returns exactly `ConnectionFailed`. -/
theorem new_returns_ok_or_connection_failed (egl : EGLEnv) (xOpen : Nat) :
    (∀ e, Generic.Connection.new egl = .error e → e = .ConnectionFailed) ∧
    (∀ c, Generic.Connection.new egl = .ok c →
      Generic.Connection.gl_api c = .GL ∧
      Generic.Connection.create_adapter c = .ok .hardware ∧
      c.native_connection.egl_display ≠ NO_DISPLAY ∧
      egl.initializeOk c.native_connection.egl_display = true) ∧
    (∀ e, X11.Connection.new xOpen egl = .ret (.error e) →
      e = .ConnectionFailed) ∧
    (∀ c, X11.Connection.new xOpen egl = .ret (.ok c) →
      X11.Connection.gl_api c = .GL ∧
      X11.Connection.create_adapter c = .ok .hardware ∧
      c.native_connection.x11_display ≠ 0 ∧
      egl.initializeOk c.native_connection.egl_display = true) := by
  have hgen : Generic.Connection.new egl = .error .ConnectionFailed ∨
      ∃ d, d ≠ NO_DISPLAY ∧ egl.initializeOk d = true ∧
        Generic.Connection.new egl = .ok ⟨⟨d⟩⟩ := by
    by_cases h1 : egl.getPlatformDisplaySurfaceless = NO_DISPLAY
    · left
      simp [Generic.Connection.new, h1]
    · by_cases h2 : egl.initializeOk egl.getPlatformDisplaySurfaceless = true
      · right
        exact ⟨_, h1, h2, by
          simp [Generic.Connection.new, h1, h2,
            Generic.Connection.from_native_connection]⟩
      · left
        simp only [Bool.not_eq_true] at h2
        simp [Generic.Connection.new, h1, h2]
  have hx : X11.Connection.new xOpen egl = .ret (.error .ConnectionFailed) ∨
      X11.Connection.new xOpen egl = .abort ∨
      ∃ dE, xOpen ≠ 0 ∧ egl.initializeOk dE = true ∧
        X11.Connection.new xOpen egl = .ret (.ok ⟨⟨dE, xOpen, true⟩⟩) := by
    by_cases h1 : xOpen = 0
    · left
      simp [X11.Connection.new, h1]
    · by_cases h2 : egl.initializeOk (egl.getPlatformDisplayX11 xOpen) = true
      · right; right
        exact ⟨_, h1, h2, by
          simp [X11.Connection.new, X11.create_egl_display, h1, h2]⟩
      · right; left
        simp only [Bool.not_eq_true] at h2
        simp [X11.Connection.new, X11.create_egl_display, h1, h2]
  refine ⟨?_, ?_, ?_, ?_⟩
  · intro e h
    rcases hgen with hg | ⟨d, _, _, hg⟩ <;> rw [hg] at h <;> simp_all
  · intro c h
    rcases hgen with hg | ⟨d, hd1, hd2, hg⟩ <;> rw [hg] at h
    · simp at h
    · have hc : c = ⟨⟨d⟩⟩ := by simpa using h.symm
      subst hc
      exact ⟨rfl, rfl, hd1, hd2⟩
  · intro e h
    rcases hx with hg | hg | ⟨dE, _, _, hg⟩ <;> rw [hg] at h <;> simp_all
  · intro c h
    rcases hx with hg | hg | ⟨dE, hd1, hd2, hg⟩ <;> rw [hg] at h
    · simp at h
    · simp at h
    · have hc : c = ⟨⟨dE, xOpen, true⟩⟩ := by simpa using h.symm
      subst hc
      exact ⟨rfl, rfl, hd1, hd2⟩

/-- Witness for C6: a concrete environment where both backends' `new`
succeed and the resulting connections answer `gl_api` and `create_adapter`
as claimed. -/
theorem new_returns_ok_or_connection_failed_witness :
    X11.Connection.new 5 ⟨fun d => d + 1, 7, fun _ => true⟩ =
        .ret (.ok ⟨⟨6, 5, true⟩⟩) ∧
      X11.Connection.gl_api ⟨⟨6, 5, true⟩⟩ = .GL ∧
      X11.Connection.create_adapter ⟨⟨6, 5, true⟩⟩ = .ok .hardware ∧
      (X11.NativeConnectionWrapper.mk 6 5 true).x11_display ≠ 0 ∧
      (fun _ : Nat => true) (X11.NativeConnectionWrapper.mk 6 5 true).egl_display
        = true :=
  ⟨rfl,
   (new_returns_ok_or_connection_failed ⟨fun d => d + 1, 7, fun _ => true⟩
     5).2.2.2 ⟨⟨6, 5, true⟩⟩ rfl⟩

/-- Claim C7: for the X11 backend, a Connection obtained through
`from_native_connection` (wrapper not owning the display) never emits
`XCloseDisplay` no matter how many clones are dropped; a Connection obtained
through `new()` (owning wrapper) emits `XCloseDisplay` exactly once, and
only at the drop of the last shared reference; in both cases the wrapper's
drop nulls the stored `x11_display` pointer. -/
theorem x11_close_display_exactly_once (xOpen : Nat) (egl : EGLEnv)
    (nc : X11.NativeConnection) (c c' : X11.Connection)
    (hnew : X11.Connection.new xOpen egl = .ret (.ok c))
    (hfrom : X11.Connection.from_native_connection nc = .ok c') :
    (∀ m, countClose (arcDropAll m (c'.native_connection.drop).1) = 0) ∧
    (∀ n, 1 ≤ n →
      countClose (arcDropAll n (c.native_connection.drop).1) = 1) ∧
    (∀ r, 2 ≤ r → arcDropOne r (c.native_connection.drop).1 = []) ∧
    arcDropOne 1 (c.native_connection.drop).1 =
      [.XCloseDisplay c.native_connection.x11_display] ∧
    (c.native_connection.drop).2.x11_display = 0 ∧
    (c'.native_connection.drop).2.x11_display = 0 := by
  have hc' : c' = ⟨⟨nc.egl_display, nc.x11_display, false⟩⟩ := by
    simpa [X11.Connection.from_native_connection] using hfrom.symm
  have hcown : c.native_connection.x11_display_is_owned = true := by
    by_cases h1 : xOpen = 0
    · simp [X11.Connection.new, h1] at hnew
    · rcases hcegl : X11.create_egl_display egl xOpen with _ | e
      · simp [X11.Connection.new, h1, hcegl] at hnew
      · have hc : c = ⟨⟨e, xOpen, true⟩⟩ := by
          have := hnew
          simp [X11.Connection.new, h1, hcegl] at this
          exact this.symm
        rw [hc]
  subst hc'
  refine ⟨?_, ?_, ?_, ?_, ?_, rfl⟩
  · intro m
    simp [X11.NativeConnectionWrapper.drop, arcDropAll_eq, countClose]
  · intro n hn
    rw [arcDropAll_eq]
    have : ¬ n = 0 := by omega
    simp [this, X11.NativeConnectionWrapper.drop, hcown, countClose]
  · intro r hr
    have : ¬ r = 1 := by omega
    simp [arcDropOne, this]
  · simp [arcDropOne, X11.NativeConnectionWrapper.drop, hcown]
  · simp [X11.NativeConnectionWrapper.drop]

/-- Witness for C7: with three clones of an owned connection, the drop trace
closes the display exactly once; with three clones of a borrowed one,
never. -/
theorem x11_close_display_exactly_once_witness :
    countClose (arcDropAll 3
        ((X11.Connection.mk ⟨6, 5, true⟩).native_connection.drop).1) = 1 ∧
      countClose (arcDropAll 3
        ((X11.Connection.mk ⟨9, 8, false⟩).native_connection.drop).1) = 0 :=
  ⟨(x11_close_display_exactly_once 5 ⟨fun d => d + 1, 7, fun _ => true⟩
      ⟨9, 8⟩ ⟨⟨6, 5, true⟩⟩ ⟨⟨9, 8, false⟩⟩ rfl rfl).2.1 3 (by omega),
   (x11_close_display_exactly_once 5 ⟨fun d => d + 1, 7, fun _ => true⟩
      ⟨9, 8⟩ ⟨⟨6, 5, true⟩⟩ ⟨⟨9, 8, false⟩⟩ rfl rfl).1 3⟩

/-- Claim C8: a scope bracketed by `lock_display` emits exactly one
`XLockDisplay` and exactly one matching `XUnlockDisplay` (for any body that
does not itself touch the lock), the unlock coming after the body in the
trace on every exit path — the body's failure or early return included —
with the body's result passed through unchanged. -/
theorem x11_lock_unlock_exactly_once {α : Type}
    (w : X11.NativeConnectionWrapper)
    (body : Nat → List XCall × Except Error α)
    (hL : countLock (body w.x11_display).1 = 0)
    (hU : countUnlock (body w.x11_display).1 = 0) :
    (X11.withLockedDisplay w body).1 =
      .XLockDisplay w.x11_display ::
        ((body w.x11_display).1 ++ [.XUnlockDisplay w.x11_display]) ∧
    countLock (X11.withLockedDisplay w body).1 = 1 ∧
    countUnlock (X11.withLockedDisplay w body).1 = 1 ∧
    (X11.withLockedDisplay w body).2 = (body w.x11_display).2 := by
  refine ⟨rfl, ?_, ?_, rfl⟩
  · simp only [X11.withLockedDisplay, X11.NativeConnectionWrapper.lock_display,
      X11.DisplayGuard.drop, countLock] at hL ⊢
    simp [List.countP_append, List.countP_cons, hL]
  · simp only [X11.withLockedDisplay, X11.NativeConnectionWrapper.lock_display,
      X11.DisplayGuard.drop, countUnlock] at hU ⊢
    simp [List.countP_append, List.countP_cons, hU]

/-- Witness for C8: a body that fails immediately still produces a trace
with exactly one `XUnlockDisplay`, and the failure is passed through. -/
theorem x11_lock_unlock_exactly_once_witness :
    countUnlock (@X11.withLockedDisplay Unit ⟨6, 5, true⟩
        (fun _ => ([], .error .ConnectionFailed))).1 = 1 ∧
      (@X11.withLockedDisplay Unit ⟨6, 5, true⟩
        (fun _ => ([], .error .ConnectionFailed))).2 =
        .error .ConnectionFailed :=
  ⟨(@x11_lock_unlock_exactly_once Unit ⟨6, 5, true⟩
      (fun _ => ([], .error .ConnectionFailed)) rfl rfl).2.2.1,
   (@x11_lock_unlock_exactly_once Unit ⟨6, 5, true⟩
      (fun _ => ([], .error .ConnectionFailed)) rfl rfl).2.2.2⟩

/-- Claim C9: `create_egl_display` aborts the process exactly when
`eglInitialize` reports failure (returns EGL FALSE), and this sub-step never
surfaces the failure as a recoverable error value: `from_x11_display` never
returns an error at all, and `new` with a successfully opened display aborts
— rather than returning `ConnectionFailed` — when initialization fails. -/
theorem x11_create_egl_display_abort (egl : EGLEnv) (display : Nat) :
    (X11.create_egl_display egl display = .abort ↔
      egl.initializeOk (egl.getPlatformDisplayX11 display) = false) ∧
    (∀ is_owned e, X11.Connection.from_x11_display egl display is_owned ≠
      .ret (.error e)) ∧
    (display ≠ 0 →
      egl.initializeOk (egl.getPlatformDisplayX11 display) = false →
      X11.Connection.new display egl = .abort) := by
  by_cases h2 : egl.initializeOk (egl.getPlatformDisplayX11 display) = true
  · refine ⟨?_, ?_, ?_⟩
    · simp [X11.create_egl_display, h2]
    · intro is_owned e
      simp [X11.Connection.from_x11_display, X11.create_egl_display, h2]
    · intro _ hfail
      rw [h2] at hfail
      cases hfail
  · simp only [Bool.not_eq_true] at h2
    refine ⟨?_, ?_, ?_⟩
    · simp [X11.create_egl_display, h2]
    · intro is_owned e
      simp [X11.Connection.from_x11_display, X11.create_egl_display, h2]
    · intro h1 _
      simp [X11.Connection.new, X11.create_egl_display, h1, h2]

/-- Witness for C9: with an environment whose `eglInitialize` fails,
`create_egl_display` aborts, and `new` on an open display aborts too. -/
theorem x11_create_egl_display_abort_witness :
    X11.create_egl_display ⟨fun d => d + 1, 7, fun _ => false⟩ 3 = .abort ∧
      X11.Connection.new 3 ⟨fun d => d + 1, 7, fun _ => false⟩ = .abort :=
  ⟨(x11_create_egl_display_abort ⟨fun d => d + 1, 7, fun _ => false⟩ 3).1.mpr
    rfl,
   (x11_create_egl_display_abort ⟨fun d => d + 1, 7, fun _ => false⟩
     3).2.2 (by omega) rfl⟩

/-- Claim C10: on the surfaceless (generic) backend,
`create_device_from_native_device` ignores its native-device argument
entirely: it equals `create_device` applied to the adapter delivered by
`create_adapter()` on the same connection, gives identical results for any
two native devices, and never returns an error — in particular never
`IncompatibleNativeDevice`. -/
theorem generic_cdfnd_ignores_argument (conn : Generic.Connection)
    (nd nd' : Generic.NativeDevice) :
    (∀ a, Generic.Connection.create_adapter conn = .ok a →
      Generic.Connection.create_device_from_native_device conn nd =
        Generic.Connection.create_device conn a) ∧
    Generic.Connection.create_device_from_native_device conn nd =
      Generic.Connection.create_device_from_native_device conn nd' ∧
    (∀ e, Generic.Connection.create_device_from_native_device conn nd ≠
      .error e) := by
  refine ⟨?_, rfl, ?_⟩
  · intro a h
    have ha : a = .hardware := by
      simpa [Generic.Connection.create_adapter,
        Generic.Connection.create_hardware_adapter] using h.symm
    subst ha
    rfl
  · intro e
    simp [Generic.Connection.create_device_from_native_device,
      Generic.Connection.create_adapter,
      Generic.Connection.create_hardware_adapter, Generic.Device.new]

/-- Witness for C10: on a concrete connection, a software-tagged and a
low-power-tagged native device produce the same device as `create_device`
with the adapter from `create_adapter()`. -/
theorem generic_cdfnd_ignores_argument_witness :
    Generic.Connection.create_adapter ⟨⟨1⟩⟩ = .ok .hardware ∧
      Generic.Connection.create_device_from_native_device ⟨⟨1⟩⟩ ⟨.software⟩ =
        Generic.Connection.create_device ⟨⟨1⟩⟩ .hardware :=
  ⟨rfl,
   (generic_cdfnd_ignores_argument ⟨⟨1⟩⟩ ⟨.software⟩ ⟨.low_power⟩).1
     .hardware rfl⟩

end Surfman
